import Mathlib

/-!
Verification of the GitHub PR triaging agent (`src/main.py`) against its
natural-language specification.

The Python program is shallowly embedded: each route handler and helper
becomes a total Lean function over explicit inputs that stand for the
request, the environment configuration, and the observable behaviour of
the external services (GitHub HTTP responses, the Gemini backend, Slack).
Python exceptions are modelled as explicit outcome constructors; Python
truthiness of optional strings (`None` and `""` are falsy) is modelled by
`strTruthy`.  Python dicts returned to callers are modelled as association
lists `List (String × String)` so that dict truthiness (non-emptiness) and
`.get` lookups keep their Python meaning.
-/

namespace PRTriage

/-- Python truthiness of an optional string: `None` and `""` are falsy. -/
def strTruthy : Option String → Bool
  | none => false
  | some s => !(s == "")

/-- The ASCII whitespace characters removed by Python's `str.strip()`
(`' \t\n\r\x0b\x0c'`; Python additionally strips non-ASCII Unicode spaces,
which do not occur in this program's data). -/
def isStripWS (c : Char) : Bool :=
  c == ' ' || c == '\t' || c == '\n' || c == '\r' || c == '\x0b' || c == '\x0c'

/-- Python `str.strip()`: drop leading and trailing whitespace. -/
def pyStrip (s : String) : String :=
  ⟨((s.data.dropWhile isStripWS).reverse.dropWhile isStripWS).reverse⟩

/-- Python `str.upper()` on the ASCII letters this program manipulates. -/
def pyUpper (s : String) : String :=
  ⟨s.data.map Char.toUpper⟩

/-- Outcome of one `model.generate_content(...)` call (together with the
`.text` access): either a response whose `.text` is `none` (Python `None`)
or a string, or a raised exception with message `msg`. -/
inductive GenResult where
  | ok (text : Option String)
  | exn (msg : String)
deriving DecidableEq

/-- The canonical verdict list `['CRITICAL', 'NEEDS_REVIEW', 'GOOD']`
from `analyze_with_ai` in `src/main.py`. -/
def canonicalVerdicts : List String := ["CRITICAL", "NEEDS_REVIEW", "GOOD"]

/-- The dict literal `{"verdict": v, "comment": c}`. -/
def mkResult (v c : String) : List (String × String) :=
  [("verdict", v), ("comment", c)]

/-- The dict built by the `except Exception` handler of `analyze_with_ai`
(src/main.py line 205). -/
def errResult (e : String) : List (String × String) :=
  mkResult "NEEDS_REVIEW" ("AI analysis error: " ++ e ++ " - manual review required")

/-- `result_text = response.text if response.text else "No response from AI"`
(src/main.py line 186). -/
def firstText : Option String → String
  | some s => if s == "" then "No response from AI" else s
  | none => "No response from AI"

/-- `verdict = classification_response.text.strip().upper() if
classification_response.text else "NEEDS_REVIEW"` (src/main.py line 196). -/
def normVerdict : Option String → String
  | some s => if s == "" then "NEEDS_REVIEW" else pyUpper (pyStrip s)
  | none => "NEEDS_REVIEW"

/-- `if verdict not in [...]: verdict = 'NEEDS_REVIEW'` (src/main.py
lines 198-199). -/
def clampVerdict (v : String) : String :=
  if v ∈ canonicalVerdicts then v else "NEEDS_REVIEW"

/-- `analyze_with_ai` (src/main.py lines 172-205).  Inputs: whether the
global `model` is configured (lines 24-28), the outcomes of the two
`generate_content` calls, and the diff text (which only feeds the prompt,
so it does not influence the control flow).  Any exception raised by
either backend call is caught by the `except Exception` handler and turned
into a NEEDS_REVIEW dict (lines 203-205). -/
def analyze_with_ai (modelConfigured : Bool) (r1 r2 : GenResult)
    (_diff_content : String) : List (String × String) :=
  if !modelConfigured then
    mkResult "NEEDS_REVIEW" "AI analysis unavailable - manual review required"
  else
    match r1 with
    | .exn e => errResult e
    | .ok t1 =>
      match r2 with
      | .exn e => errResult e
      | .ok t2 => mkResult (clampVerdict (normVerdict t2)) (firstText t1)

lemma append_ne_empty_left (a b : String) (h : a ≠ "") : a ++ b ≠ "" := by
  intro hab
  apply h
  have hlen : (a ++ b).length = 0 := by rw [hab]; rfl
  rw [String.length_append] at hlen
  have : a.length = 0 := by omega
  cases a with
  | mk d =>
    cases d with
    | nil => rfl
    | cons c cs => simp [String.length] at this

lemma mkResult_lookup_verdict (v c : String) :
    (mkResult v c).lookup "verdict" = some v := by
  simp [mkResult, List.lookup]

lemma mkResult_lookup_comment (v c : String) :
    (mkResult v c).lookup "comment" = some c := by
  simp [mkResult, List.lookup]

lemma firstText_ne_empty (t : Option String) : firstText t ≠ "" := by
  match t with
  | none => decide
  | some s =>
    by_cases hs : s == ""
    · simp [firstText, hs]
    · simp only [firstText, hs, if_false]
      simpa using hs

lemma clampVerdict_mem (v : String) : clampVerdict v ∈ canonicalVerdicts := by
  unfold clampVerdict
  split
  · assumption
  · decide

lemma errComment_ne_empty (e : String) :
    ("AI analysis error: " ++ e ++ " - manual review required") ≠ "" :=
  append_ne_empty_left ("AI analysis error: " ++ e) " - manual review required"
    (append_ne_empty_left "AI analysis error: " e (by decide))

/-- Every path of `analyze_with_ai` returns a `mkResult` dict whose verdict
is canonical and whose comment is non-empty; backend errors yield
NEEDS_REVIEW. -/
lemma analyze_cases (cfg : Bool) (r1 r2 : GenResult) (d : String) :
    ∃ v c, analyze_with_ai cfg r1 r2 d = mkResult v c ∧
      v ∈ canonicalVerdicts ∧ c ≠ "" ∧
      ((cfg = false ∨ (∃ e, r1 = .exn e) ∨ (∃ e, r2 = .exn e)) → v = "NEEDS_REVIEW") := by
  cases cfg with
  | false =>
    exact ⟨"NEEDS_REVIEW", "AI analysis unavailable - manual review required",
      rfl, by decide, by decide, fun _ => rfl⟩
  | true =>
    cases r1 with
    | exn e =>
      exact ⟨"NEEDS_REVIEW", "AI analysis error: " ++ e ++ " - manual review required",
        rfl, by decide, errComment_ne_empty e, fun _ => rfl⟩
    | ok t1 =>
      cases r2 with
      | exn e =>
        exact ⟨"NEEDS_REVIEW", "AI analysis error: " ++ e ++ " - manual review required",
          rfl, by decide, errComment_ne_empty e, fun _ => rfl⟩
      | ok t2 =>
        refine ⟨clampVerdict (normVerdict t2), firstText t1, rfl,
          clampVerdict_mem _, firstText_ne_empty _, ?_⟩
        rintro (h | ⟨e, he⟩ | ⟨e, he⟩) <;> simp_all

/-- C1: For every diff input and every backend behaviour (success, empty
response, raised exception, backend not configured), `analyze_with_ai`
returns a result whose verdict is one of CRITICAL, NEEDS_REVIEW, GOOD and
whose comment is a non-empty string; any backend invocation error is
caught locally and converted to a NEEDS_REVIEW result, never re-raised to
the caller (the embedding is a total function into result dicts: no
exceptional outcome exists). -/
theorem C1_analyze_total_canonical (cfg : Bool) (r1 r2 : GenResult) (d : String) :
    (∃ v, (analyze_with_ai cfg r1 r2 d).lookup "verdict" = some v ∧
        v ∈ canonicalVerdicts) ∧
    (∃ c, (analyze_with_ai cfg r1 r2 d).lookup "comment" = some c ∧ c ≠ "") ∧
    ((cfg = false ∨ (∃ e, r1 = .exn e) ∨ (∃ e, r2 = .exn e)) →
      (analyze_with_ai cfg r1 r2 d).lookup "verdict" = some "NEEDS_REVIEW") := by
  obtain ⟨v, c, heq, hmem, hcne, herr⟩ := analyze_cases cfg r1 r2 d
  refine ⟨⟨v, ?_, hmem⟩, ⟨c, ?_, hcne⟩, ?_⟩
  · rw [heq, mkResult_lookup_verdict]
  · rw [heq, mkResult_lookup_comment]
  · intro h
    rw [heq, mkResult_lookup_verdict, herr h]

/-- Witness for C1 at a concrete input: unconfigured backend. -/
theorem C1_analyze_total_canonical_witness :
    (analyze_with_ai false (.exn "boom") (.ok none) "diff").lookup "verdict"
      = some "NEEDS_REVIEW" :=
  (C1_analyze_total_canonical false (.exn "boom") (.ok none) "diff").2.2
    (Or.inl rfl)

/-- C7: In the two-pass classifier, when both backend calls succeed with
non-empty text, the second-pass response is normalized by trimming
whitespace and upper-casing; any normalized value outside the canonical
set becomes NEEDS_REVIEW; and the returned comment is the first-pass
explanatory response, not the classification word. -/
theorem C7_second_pass_normalization (s1 s2 : String) (h1 : s1 ≠ "") (h2 : s2 ≠ "") :
    analyze_with_ai true (.ok (some s1)) (.ok (some s2)) "d" =
      mkResult (if pyUpper (pyStrip s2) ∈ canonicalVerdicts
                then pyUpper (pyStrip s2) else "NEEDS_REVIEW") s1 := by
  have h1' : (s1 == "") = false := by simpa using h1
  have h2' : (s2 == "") = false := by simpa using h2
  simp only [analyze_with_ai, Bool.not_true, Bool.false_eq_true, if_false,
    firstText, normVerdict, clampVerdict, h1', h2']

/-- Witness for C7: `"  critical\n"` normalizes to CRITICAL and the
comment is the first-pass explanation. -/
theorem C7_second_pass_normalization_witness :
    analyze_with_ai true (.ok (some "explained issue")) (.ok (some "  critical\n")) "d" =
      mkResult "CRITICAL" "explained issue" := by
  rw [C7_second_pass_normalization "explained issue" "  critical\n"
    (by decide) (by decide)]
  decide

/-! ## The PR URL pattern

`PR_URL_PATTERN = re.compile(r'^https://github\.com/([^/]+)/([^/]+)/pull/(\d+)(?:/.*)?$')`
(src/main.py line 39).  The regex is deterministic: `[^/]+` cannot cross a
`/`, so each capture is the maximal run up to the next delimiter, and
after the maximal digit run the remainder must satisfy `(?:/.*)?$`.
Python semantics preserved: `.` does not match a newline, and `$` matches
at the end of the string or just before a single trailing newline.
`\d` is modelled by `Char.isDigit` (Python additionally accepts non-ASCII
Unicode decimal digits, which no claim exercises). -/

/-- `[^/]`. -/
def noSlash (c : Char) : Bool := !(c == '/')

/-- Match a literal character sequence at the front, returning the rest. -/
def stripLit : List Char → List Char → Option (List Char)
  | [], cs => some cs
  | _ :: _, [] => none
  | l :: ls, c :: cs => if c = l then stripLit ls cs else none

/-- `([^/]+)/`: a non-empty run of non-slash characters followed by `/`;
returns the captured segment and the text after the slash. -/
def seg? (cs : List Char) : Option (List Char × List Char) :=
  match cs.dropWhile noSlash with
  | '/' :: rest =>
    if (cs.takeWhile noSlash).isEmpty then none
    else some (cs.takeWhile noSlash, rest)
  | _ => none

/-- `.*$`: `.` consumes everything up to a newline; then `$` (end of
string or just before one trailing newline) must hold. -/
def dotStarDollar (cs : List Char) : Bool :=
  (cs.dropWhile (fun c => !(c == '\n'))).isEmpty
    || (cs.dropWhile (fun c => !(c == '\n'))) == ['\n']

/-- `(?:/.*)?$`: what may follow the digit capture — nothing, a single
trailing newline (Python `$`), or `/` followed by `.*$`. -/
def tailOk : List Char → Bool
  | [] => true
  | ['\n'] => true
  | '/' :: r => dotStarDollar r
  | _ => false

/-- The character-level matcher for `PR_URL_PATTERN`, returning the three
capture groups on success. -/
def prMatchChars (cs : List Char) : Option (List Char × List Char × List Char) :=
  (stripLit "https://github.com/".data cs).bind fun cs1 =>
  (seg? cs1).bind fun p =>
  (seg? p.2).bind fun q =>
  (stripLit "pull/".data q.2).bind fun cs4 =>
    let num := cs4.takeWhile Char.isDigit
    let rest := cs4.dropWhile Char.isDigit
    if num.isEmpty then none
    else if tailOk rest then some (p.1, q.1, num)
    else none

/-- `PR_URL_PATTERN.match(s)` with its three groups as strings. -/
def prUrlMatch (s : String) : Option (String × String × String) :=
  (prMatchChars s.data).map fun t => (⟨t.1⟩, ⟨t.2.1⟩, ⟨t.2.2⟩)

/-- `validate_pr_url` (src/main.py lines 94-99): `(None, None, None)` on
non-match, the three groups otherwise. -/
def validate_pr_url (s : String) : Option String × Option String × Option String :=
  match prUrlMatch s with
  | some (o, r, n) => (some o, some r, some n)
  | none => (none, none, none)

lemma takeWhile_app_all (p : Char → Bool) (xs ys : List Char)
    (hx : ∀ x ∈ xs, p x = true)
    (hy : ∀ y, ys.head? = some y → p y = false) :
    (xs ++ ys).takeWhile p = xs ∧ (xs ++ ys).dropWhile p = ys := by
  induction xs with
  | nil =>
    simp only [List.nil_append]
    cases ys with
    | nil => simp
    | cons y ys' =>
      have := hy y rfl
      simp [List.takeWhile_cons, List.dropWhile_cons, this]
  | cons a as ih =>
    have ha : p a = true := hx a (by simp)
    have ih' := ih (fun x hx' => hx x (by simp [hx']))
    simp [List.takeWhile_cons, List.dropWhile_cons, ha, ih'.1, ih'.2]

lemma stripLit_of_append (l cs : List Char) : stripLit l (l ++ cs) = some cs := by
  induction l with
  | nil => rfl
  | cons c ls ih => simp [stripLit, ih]

lemma seg?_of_append (sg : List Char) (hne : sg ≠ [])
    (hsg : ∀ x ∈ sg, noSlash x = true) (rest : List Char) :
    seg? (sg ++ '/' :: rest) = some (sg, rest) := by
  have h := takeWhile_app_all noSlash sg ('/' :: rest) hsg
    (by intro y hy; simp at hy; subst hy; rfl)
  simp only [seg?, h.1, h.2]
  simp [hne]

lemma tailOk_cases (cs : List Char) (h : tailOk cs = true) :
    cs = [] ∨ cs = ['\n'] ∨ ∃ r, cs = '/' :: r ∧ dotStarDollar r = true := by
  unfold tailOk at h
  split at h
  · exact Or.inl rfl
  · exact Or.inr (Or.inl rfl)
  · exact Or.inr (Or.inr ⟨_, rfl, h⟩)
  · cases h

lemma tailOk_head_not_digit (cs : List Char) (h : tailOk cs = true) :
    ∀ y, cs.head? = some y → Char.isDigit y = false := by
  intro y hy
  rcases tailOk_cases cs h with h1 | h1 | ⟨r, h1, -⟩ <;> subst h1
  · cases hy
  · simp only [List.head?_cons, Option.some.injEq] at hy
    subst hy; rfl
  · simp only [List.head?_cons, Option.some.injEq] at hy
    subst hy; rfl

/-- A string of the PR URL shape, built from its components:
`https://github.com/{owner}/{repo}/pull/{number}{tail}`. -/
def mkPRUrl (owner repo number tail : String) : String :=
  "https://github.com/" ++ owner ++ "/" ++ repo ++ "/pull/" ++ number ++ tail

lemma mkPRUrl_data (owner repo number tail : String) :
    (mkPRUrl owner repo number tail).data =
      "https://github.com/".data ++ (owner.data ++ '/' ::
        (repo.data ++ '/' :: ("pull/".data ++ (number.data ++ tail.data)))) := by
  have hslash : ("/" : String).data = ['/'] := rfl
  have hpull : ("/pull/" : String).data = '/' :: "pull/".data := rfl
  simp [mkPRUrl, String.data_append, hslash, hpull]

lemma prMatchChars_mk (owner repo number tail : String)
    (ho1 : owner.data ≠ []) (ho2 : ∀ c ∈ owner.data, noSlash c = true)
    (hr1 : repo.data ≠ []) (hr2 : ∀ c ∈ repo.data, noSlash c = true)
    (hn1 : number.data ≠ []) (hn2 : ∀ c ∈ number.data, c.isDigit = true)
    (ht : tailOk tail.data = true) :
    prMatchChars (mkPRUrl owner repo number tail).data =
      some (owner.data, repo.data, number.data) := by
  have hnum := takeWhile_app_all Char.isDigit number.data tail.data hn2
    (tailOk_head_not_digit tail.data ht)
  have hne : number.data.isEmpty = false := by
    cases hd : number.data with
    | nil => exact absurd hd hn1
    | cons c cs => rfl
  rw [mkPRUrl_data]
  simp only [prMatchChars, stripLit_of_append, Option.some_bind,
    seg?_of_append owner.data ho1 ho2, seg?_of_append repo.data hr1 hr2,
    hnum.1, hnum.2, hne, ht, Bool.false_eq_true, if_false, if_true]

/-- C8: for every URL of the expected PR shape, `validate_pr_url` extracts
owner, repo and number exactly, ignoring any trailing path part accepted
by the pattern's `(?:/.*)?$` tail; and for every string whatsoever it
returns either all three components or none of them (no partial result). -/
theorem C8_validate_extracts_exactly (owner repo number tail : String)
    (ho1 : owner.data ≠ []) (ho2 : ∀ c ∈ owner.data, noSlash c = true)
    (hr1 : repo.data ≠ []) (hr2 : ∀ c ∈ repo.data, noSlash c = true)
    (hn1 : number.data ≠ []) (hn2 : ∀ c ∈ number.data, c.isDigit = true)
    (ht : tailOk tail.data = true) :
    validate_pr_url (mkPRUrl owner repo number tail) =
      (some owner, some repo, some number) ∧
    ∀ s : String, (∃ o r n, validate_pr_url s = (some o, some r, some n)) ∨
      validate_pr_url s = (none, none, none) := by
  constructor
  · rw [validate_pr_url, prUrlMatch,
      prMatchChars_mk owner repo number tail ho1 ho2 hr1 hr2 hn1 hn2 ht]
    rfl
  · intro s
    rw [validate_pr_url]
    match prUrlMatch s with
    | some (o, r, n) => exact Or.inl ⟨o, r, n, rfl⟩
    | none => exact Or.inr rfl

/-- Witness for C8: a PR URL with trailing `/files` parses to its
components. -/
theorem C8_validate_extracts_exactly_witness :
    validate_pr_url (mkPRUrl "user" "repo" "123" "/files") =
      (some "user", some "repo", some "123") :=
  (C8_validate_extracts_exactly "user" "repo" "123" "/files"
    (by decide) (by decide) (by decide) (by decide)
    (by decide) (by decide) (by decide)).1

/-- Any successful match of `PR_URL_PATTERN` has a non-empty, all-digit
number group: the `(\d+)` capture cannot contain a non-digit character
(so the claim that some non-digit "number" is accepted is false). -/
theorem C2_number_group_digits_only (s o r n : String)
    (h : prUrlMatch s = some (o, r, n)) :
    n.data ≠ [] ∧ ∀ c ∈ n.data, c.isDigit = true := by
  unfold prUrlMatch at h
  cases hm : prMatchChars s.data with
  | none => rw [hm] at h; cases h
  | some trip =>
    rw [hm] at h
    simp only [Option.map_some', Option.some.injEq, Prod.mk.injEq] at h
    have hn : n = ⟨trip.2.2⟩ := h.2.2.symm
    subst hn
    show trip.2.2 ≠ [] ∧ ∀ c ∈ trip.2.2, c.isDigit = true
    unfold prMatchChars at hm
    cases h1 : stripLit "https://github.com/".data s.data with
    | none => rw [h1] at hm; cases hm
    | some cs1 =>
      simp only [h1, Option.some_bind] at hm
      cases h2 : seg? cs1 with
      | none => rw [h2] at hm; cases hm
      | some p =>
        simp only [h2, Option.some_bind] at hm
        cases h3 : seg? p.2 with
        | none => rw [h3] at hm; cases hm
        | some q =>
          simp only [h3, Option.some_bind] at hm
          cases h4 : stripLit "pull/".data q.2 with
          | none => rw [h4] at hm; cases hm
          | some cs4 =>
            simp only [h4, Option.some_bind] at hm
            split at hm
            · cases hm
            · split at hm
              · rename_i hempty htl
                simp only [Option.some.injEq] at hm
                have hn' : trip.2.2 = cs4.takeWhile Char.isDigit := by
                  rw [← hm]
                constructor
                · rw [hn']
                  intro hnil
                  rw [hnil] at hempty
                  exact hempty rfl
                · intro c hc
                  rw [hn'] at hc
                  exact List.mem_takeWhile_imp hc
              · cases hm

/-- Counterexample for C2 as stated: the spec's own example
`https://github.com/user/repo/pull/abc` does not match — the parser
returns no components, rather than accepting `abc` as the PR number. -/
theorem C2_counterexample_abc :
    validate_pr_url "https://github.com/user/repo/pull/abc" = (none, none, none) := by
  decide

/-- Witness for C2's amended claim at a matching input. -/
theorem C2_number_group_digits_only_witness :
    ("123" : String).data ≠ [] ∧ ∀ c ∈ ("123" : String).data, c.isDigit = true :=
  C2_number_group_digits_only "https://github.com/u/r/pull/123" "u" "r" "123"
    (by decide)

/-! ## The primary diff fetcher

`fetch_pr_diff` (src/main.py lines 102-141) loops `for attempt in range(3)`.
Each attempt either completes with an HTTP response (status, the parsed
`X-RateLimit-Reset` header, body text) or raises a
`requests.exceptions.RequestException` (modelled by `netErr`).  Status 429
reads the reset header and sleeps `min(reset - now + 1, 60)` seconds when
positive, then `continue`s; status >= 500 sleeps `2 ** attempt` then
`continue`s; otherwise `raise_for_status()` raises `HTTPError` for any
status >= 400 — and `HTTPError` is a subclass of `RequestException`, so it
is caught by the same `except` clause as a network error: re-raised only
when `attempt == 2`, otherwise `sleep(2 ** attempt)` and retry.  Statuses
below 400 return `response.text`.  Falling out of the loop returns `None`
(`exhausted`). -/

/-- Observable outcome of one `requests.get` call of the primary fetcher. -/
inductive AttemptOutcome where
  | resp (status : Nat) (reset : Int) (body : String)
  | netErr (msg : String)

/-- How `fetch_pr_diff` finishes: a returned body, a propagated exception,
or `None` after the loop is exhausted. -/
inductive FetchResult where
  | ok (body : String)
  | raised (msg : String)
  | exhausted
deriving DecidableEq

/-- The result of `fetch_pr_diff` together with the number of `requests.get`
calls made and the sequence of `time.sleep` durations (in seconds). -/
structure FetchTrace where
  result : FetchResult
  attempts : Nat
  sleeps : List Int
deriving DecidableEq

/-- The `for attempt in range(3)` loop of `fetch_pr_diff`, processing the
remaining attempt indices.  `times i` is `int(time.time())` during
attempt `i`. -/
def fetchLoop (outcomes : Nat → AttemptOutcome) (times : Nat → Int) :
    List Nat → FetchTrace
  | [] => ⟨.exhausted, 0, []⟩
  | attempt :: rest =>
    match outcomes attempt with
    | .netErr e =>
      if attempt == 2 then ⟨.raised e, 1, []⟩
      else
        let t := fetchLoop outcomes times rest
        ⟨t.result, t.attempts + 1, ((2 : Int) ^ attempt) :: t.sleeps⟩
    | .resp status reset body =>
      if status == 429 then
        let wait : Int := min (reset - times attempt + 1) 60
        let t := fetchLoop outcomes times rest
        ⟨t.result, t.attempts + 1, (if 0 < wait then [wait] else []) ++ t.sleeps⟩
      else if 500 ≤ status then
        let t := fetchLoop outcomes times rest
        ⟨t.result, t.attempts + 1, ((2 : Int) ^ attempt) :: t.sleeps⟩
      else if 400 ≤ status then
        -- raise_for_status() raises HTTPError, caught by the
        -- RequestException handler below it
        if attempt == 2 then ⟨.raised ("HTTPError " ++ toString status), 1, []⟩
        else
          let t := fetchLoop outcomes times rest
          ⟨t.result, t.attempts + 1, ((2 : Int) ^ attempt) :: t.sleeps⟩
      else ⟨.ok body, 1, []⟩

/-- `fetch_pr_diff`: the loop over attempts 0, 1, 2. -/
def fetch_pr_diff (outcomes : Nat → AttemptOutcome) (times : Nat → Int) :
    FetchTrace :=
  fetchLoop outcomes times [0, 1, 2]

/-- C6 (confirmed): on the response sequence [429, 500, 200] the fetcher
sleeps `min(reset - now + 1, 60)` for the 429 (when that is positive),
then the exponential-backoff delay `2 ** 1 = 2` for the 500, makes exactly
3 attempts (within the bound of 3), and returns the 200 body. -/
theorem C6_sequence_429_500_200 (outcomes : Nat → AttemptOutcome)
    (times : Nat → Int) (reset r1 r2 : Int) (b0 b1 body : String)
    (h0 : outcomes 0 = .resp 429 reset b0)
    (h1 : outcomes 1 = .resp 500 r1 b1)
    (h2 : outcomes 2 = .resp 200 r2 body)
    (hw : 0 < min (reset - times 0 + 1) 60) :
    fetch_pr_diff outcomes times =
      ⟨.ok body, 3, [min (reset - times 0 + 1) 60, 2]⟩ := by
  simp [fetch_pr_diff, fetchLoop, h0, h1, h2, hw]

/-- Witness for C6 at concrete data: reset 100, clock 50, so the 429 sleep
is `min(100 - 50 + 1, 60) = 51`. -/
theorem C6_sequence_429_500_200_witness :
    fetch_pr_diff
      (fun n => if n = 0 then .resp 429 100 "" else
                if n = 1 then .resp 500 0 "" else .resp 200 0 "the diff")
      (fun _ => 50) =
      ⟨.ok "the diff", 3, [51, 2]⟩ := by
  rw [C6_sequence_429_500_200 _ _ 100 0 0 "" "" "the diff" rfl rfl rfl (by decide)]
  decide

/-- C5 amended: a non-2xx status other than 429/5xx (e.g. 404) does NOT
raise immediately: `raise_for_status`'s `HTTPError` is a
`RequestException` and is caught by the retry handler, so the fetcher
sleeps `2 ** attempt` and retries, re-raising only on the third attempt. -/
theorem C5_4xx_is_retried (status : Nat) (hs4 : 400 ≤ status)
    (hs5 : status < 500) (hs429 : status ≠ 429) (reset : Int) (body : String)
    (times : Nat → Int) :
    fetch_pr_diff (fun _ => .resp status reset body) times =
      ⟨.raised ("HTTPError " ++ toString status), 3, [1, 2]⟩ := by
  have h5 : ¬ 500 ≤ status := by omega
  simp [fetch_pr_diff, fetchLoop, hs429, hs4, h5]

/-- Witness for the amended C5 at status 404. -/
theorem C5_4xx_is_retried_witness :
    fetch_pr_diff (fun _ => .resp 404 0 "Not Found") (fun _ => 0) =
      ⟨.raised ("HTTPError " ++ toString (404 : Nat)), 3, [1, 2]⟩ :=
  C5_4xx_is_retried 404 (by decide) (by decide) (by decide) 0 "Not Found"
    (fun _ => 0)

/-- Counterexample for C5 as stated: after a 404 on the first attempt the
fetcher performs a second attempt and returns its 200 body — it does not
raise immediately on the first non-retryable status. -/
theorem C5_counterexample_404_then_200 :
    fetch_pr_diff
      (fun n => if n = 0 then .resp 404 0 "Not Found" else .resp 200 0 "diff body")
      (fun _ => 0) =
      ⟨.ok "diff body", 2, [1]⟩ := by
  decide

/-! ## The webhook handler

`github_webhook` (src/main.py lines 41-91).  The whole body is wrapped in
`try/except Exception`, and every return — including the exception
handler's — carries HTTP status 200.  Each `jsonify` literal becomes one
constructor of `WebhookBody`; its `status` JSON field is `statusField`. -/

/-- The `pull_request` object of the payload (only the two URLs are read). -/
structure PRInfo where
  diff_url : Option String
  html_url : Option String

/-- The webhook payload: `action` and `pull_request` as read via `.get`. -/
structure Payload where
  action : Option String
  pull_request : Option PRInfo

/-- `request.json` in the webhook: it can raise (e.g. Flask's BadRequest on
malformed JSON — a subclass of Exception, caught by the handler), or
produce a payload (`none` stands for Python `None` or an empty dict, both
falsy). -/
inductive ReqJson where
  | raises (msg : String)
  | val (payload : Option Payload)

/-- The response bodies of `github_webhook`, one constructor per `jsonify`
literal. -/
inductive WebhookBody where
  | errNoPayload
  | ignoredEvent
  | ignoredAction (action : Option String)
  | errMissingUrls
  | errFetchFailed
  | errAiFailed
  | success (verdict : Option String)
  | errException (msg : String)
deriving DecidableEq

/-- The `status` field of each webhook response body. -/
def WebhookBody.statusField : WebhookBody → String
  | .errNoPayload => "error"
  | .ignoredEvent => "ignored"
  | .ignoredAction _ => "ignored"
  | .errMissingUrls => "error"
  | .errFetchFailed => "error"
  | .errAiFailed => "error"
  | .success _ => "success"
  | .errException _ => "error"

/-- `github_webhook`.  Inputs: the parsed request body, the
`X-GitHub-Event` header, the result of `fetch_diff(diff_url)` (that helper
catches all its exceptions and returns text or `None`, src/main.py lines
157-169), the classifier backend behaviour, and the result of
`send_to_slack` (which only affects a log line, never the response). -/
def github_webhook (body : ReqJson) (eventType : Option String)
    (fetchDiffResult : Option String) (modelConfigured : Bool)
    (r1 r2 : GenResult) (_slackOk : Bool) : Nat × WebhookBody :=
  match body with
  | .raises e => (200, .errException e)
  | .val none => (200, .errNoPayload)
  | .val (some p) =>
    if eventType ≠ some "pull_request" then (200, .ignoredEvent)
    else if p.action ≠ some "opened" then (200, .ignoredAction p.action)
    else
      let pr := p.pull_request.getD ⟨none, none⟩
      if !(strTruthy pr.diff_url) || !(strTruthy pr.html_url) then
        (200, .errMissingUrls)
      else if !(strTruthy fetchDiffResult) then (200, .errFetchFailed)
      else
        let ai := analyze_with_ai modelConfigured r1 r2 (fetchDiffResult.getD "")
        if ai.isEmpty then (200, .errAiFailed)
        else (200, .success (ai.lookup "verdict"))

lemma analyze_isEmpty_false (cfg : Bool) (r1 r2 : GenResult) (d : String) :
    (analyze_with_ai cfg r1 r2 d).isEmpty = false := by
  obtain ⟨v, c, heq, -, -, -⟩ := analyze_cases cfg r1 r2 d
  rw [heq]
  rfl

/-- C3: every webhook response — wrong event, non-opened action, missing
fields, diff-fetch failure, AI failure, notification failure, or an
exception — carries HTTP status 200 and a `status` field among
success/ignored/error. -/
theorem C3_webhook_always_200 (body : ReqJson) (eventType : Option String)
    (fetchDiffResult : Option String) (cfg : Bool) (r1 r2 : GenResult)
    (slackOk : Bool) :
    (github_webhook body eventType fetchDiffResult cfg r1 r2 slackOk).1 = 200 ∧
    (github_webhook body eventType fetchDiffResult cfg r1 r2 slackOk).2.statusField
      ∈ (["success", "ignored", "error"] : List String) := by
  cases body with
  | raises e => exact ⟨rfl, by simp [github_webhook, WebhookBody.statusField]⟩
  | val p =>
    cases p with
    | none => exact ⟨rfl, by simp [github_webhook, WebhookBody.statusField]⟩
    | some pl =>
      simp only [github_webhook]
      split
      · exact ⟨rfl, by simp [WebhookBody.statusField]⟩
      split
      · exact ⟨rfl, by simp [WebhookBody.statusField]⟩
      split
      · exact ⟨rfl, by simp [WebhookBody.statusField]⟩
      split
      · exact ⟨rfl, by simp [WebhookBody.statusField]⟩
      split
      · exact ⟨rfl, by simp [WebhookBody.statusField]⟩
      · exact ⟨rfl, by simp [WebhookBody.statusField]⟩

/-! ## The direct-analyze endpoint

`analyze_pr_endpoint` (src/main.py lines 239-286).  Its `try` block covers
everything, so an exception propagating out of `fetch_pr_diff` reaches the
`except Exception` handler (HTTP 500, code INTERNAL_ERROR) — the fallback
fetch is attempted only when `fetch_pr_diff` RETURNS a falsy value
(`None` after exhausting retries, or an empty body). -/

/-- The response bodies of `analyze_pr_endpoint`, one constructor per
`jsonify` literal. -/
inductive ApiBody where
  | invalidJson
  | missingUrl
  | invalidUrl
  | missingToken
  | fetchFailed
  | aiFailed
  | okResult (verdict : Option String) (comment : Option String) (pr_url : String)
  | internalError (msg : String)
deriving DecidableEq

/-- `request.json` in the endpoint: may raise (caught by the handler) or
produce `data`, with `data.get('pr_url')` inside. -/
inductive ApiReq where
  | raises (msg : String)
  | val (data : Option (Option String))

/-- The AI step of the endpoint (src/main.py lines 269-282):
`analyze_with_ai`, the (unreachable) empty-dict check, and the 200 body. -/
def endpointAnalyze (u diff : String) (cfg : Bool) (r1 r2 : GenResult) :
    Nat × ApiBody :=
  let ai := analyze_with_ai cfg r1 r2 diff
  if ai.isEmpty then (500, .aiFailed)
  else (200, .okResult (ai.lookup "verdict") (ai.lookup "comment") u)

/-- The fallback step (src/main.py lines 263-267): `fetch_pr_diff_fallback`
catches all its own exceptions and returns text or `None`; a falsy result
yields FETCH_FAILED, otherwise analysis proceeds on the fallback text. -/
def endpointFallback (u : String) (fb : Option String) (cfg : Bool)
    (r1 r2 : GenResult) : Nat × ApiBody :=
  if !(strTruthy fb) then (500, .fetchFailed)
  else endpointAnalyze u (fb.getD "") cfg r1 r2

/-- `analyze_pr_endpoint`.  Inputs: the request, whether GITHUB_TOKEN is
set, the primary fetcher's behaviour (per-attempt outcomes and clock), the
fallback fetcher's result, and the classifier backend behaviour. -/
def analyze_pr_endpoint (req : ApiReq) (githubToken : Bool)
    (outcomes : Nat → AttemptOutcome) (times : Nat → Int)
    (fallbackResult : Option String) (cfg : Bool) (r1 r2 : GenResult) :
    Nat × ApiBody :=
  match req with
  | .raises e => (500, .internalError e)
  | .val none => (400, .invalidJson)
  | .val (some pu) =>
    if !(strTruthy pu) then (400, .missingUrl)
    else
      let u := pu.getD ""
      let v := validate_pr_url u
      if !(strTruthy v.1) || !(strTruthy v.2.1) || !(strTruthy v.2.2) then
        (400, .invalidUrl)
      else if !githubToken then (500, .missingToken)
      else
        match (fetch_pr_diff outcomes times).result with
        | .raised e => (500, .internalError e)
        | .exhausted => endpointFallback u fallbackResult cfg r1 r2
        | .ok body =>
          if body == "" then endpointFallback u fallbackResult cfg r1 r2
          else endpointAnalyze u body cfg r1 r2

lemma endpointAnalyze_eq (u diff : String) (cfg : Bool) (r1 r2 : GenResult) :
    endpointAnalyze u diff cfg r1 r2 =
      (200, .okResult ((analyze_with_ai cfg r1 r2 diff).lookup "verdict")
        ((analyze_with_ai cfg r1 r2 diff).lookup "comment") u) := by
  unfold endpointAnalyze
  simp [analyze_isEmpty_false]

lemma endpointAnalyze_ne_aiFailed (u diff : String) (cfg : Bool)
    (r1 r2 : GenResult) : (endpointAnalyze u diff cfg r1 r2).2 ≠ .aiFailed := by
  rw [endpointAnalyze_eq]
  simp

lemma endpointFallback_ne_aiFailed (u : String) (fb : Option String)
    (cfg : Bool) (r1 r2 : GenResult) :
    (endpointFallback u fb cfg r1 r2).2 ≠ .aiFailed := by
  unfold endpointFallback
  split
  · simp
  · exact endpointAnalyze_ne_aiFailed _ _ _ _ _

/-- Counterexample for C4 as stated: the primary fetch fails on every
attempt with 404, so `fetch_pr_diff` raises; the exception propagates to
the endpoint's top-level handler, which answers INTERNAL_ERROR — the
fallback (here holding a perfectly good diff) is never attempted, and no
FETCH_FAILED is signalled. -/
theorem C4_counterexample_raise_skips_fallback :
    analyze_pr_endpoint (.val (some (some "https://github.com/u/r/pull/1"))) true
      (fun _ => .resp 404 0 "Not Found") (fun _ => 0) (some "good diff") true
      (.ok (some "fine")) (.ok (some "GOOD")) =
      (500, .internalError ("HTTPError " ++ toString (404 : Nat))) := by
  decide

/-- C4 amended: for a valid PR reference with a token configured, the
fallback is consulted exactly when the primary fetch RETURNS no diff
(`None` after exhausting retries — the raising paths instead propagate to
the INTERNAL_ERROR handler without attempting the fallback); when the
fallback also produces nothing the endpoint signals FETCH_FAILED with no
diff analysed, and when the fallback yields non-empty text the endpoint
succeeds with the AI result on that text. -/
theorem C4_fallback_only_on_returned_none (u o r n : String)
    (hv : validate_pr_url u = (some o, some r, some n))
    (ho : o ≠ "") (hr : r ≠ "") (hn : n ≠ "")
    (outcomes : Nat → AttemptOutcome) (times : Nat → Int)
    (fb : Option String) (cfg : Bool) (r1 r2 : GenResult) :
    (∀ e, (fetch_pr_diff outcomes times).result = .raised e →
      analyze_pr_endpoint (.val (some (some u))) true outcomes times fb cfg r1 r2
        = (500, .internalError e)) ∧
    ((fetch_pr_diff outcomes times).result = .exhausted →
      analyze_pr_endpoint (.val (some (some u))) true outcomes times fb cfg r1 r2
        = endpointFallback u fb cfg r1 r2) ∧
    endpointFallback u none cfg r1 r2 = (500, .fetchFailed) ∧
    (∀ f, f ≠ "" → endpointFallback u (some f) cfg r1 r2 =
      (200, .okResult ((analyze_with_ai cfg r1 r2 f).lookup "verdict")
        ((analyze_with_ai cfg r1 r2 f).lookup "comment") u)) := by
  have hu : u ≠ "" := by
    intro h
    rw [h] at hv
    have h0 : validate_pr_url "" = (none, none, none) := by decide
    rw [h0] at hv
    simp at hv
  have htr : strTruthy (some u) = true := by
    simp [strTruthy]
    exact hu
  refine ⟨?_, ?_, ?_, ?_⟩
  · intro e he
    simp only [analyze_pr_endpoint, htr, Bool.not_true, Bool.false_eq_true,
      if_false, Option.getD_some, hv, he]
    simp [strTruthy, ho, hr, hn]
  · intro he
    simp only [analyze_pr_endpoint, htr, Bool.not_true, Bool.false_eq_true,
      if_false, Option.getD_some, hv, he]
    simp [strTruthy, ho, hr, hn]
  · rfl
  · intro f hf
    have : strTruthy (some f) = true := by
      simp [strTruthy]
      exact hf
    simp only [endpointFallback, this, Bool.not_true, Bool.false_eq_true,
      if_false, Option.getD_some]
    exact endpointAnalyze_eq u f cfg r1 r2

/-- Witness for the amended C4: primary exhausts on three 500s, no
fallback text, so the endpoint signals FETCH_FAILED. -/
theorem C4_fallback_only_on_returned_none_witness :
    analyze_pr_endpoint (.val (some (some "https://github.com/u/r/pull/2"))) true
      (fun _ => .resp 500 0 "") (fun _ => 0) none true (.ok none) (.ok none)
      = (500, .fetchFailed) := by
  have h := C4_fallback_only_on_returned_none "https://github.com/u/r/pull/2"
    "u" "r" "2" (by decide) (by decide) (by decide) (by decide)
    (fun _ => .resp 500 0 "") (fun _ => 0) none true (.ok none) (.ok none)
  rw [h.2.1 (by decide)]
  exact h.2.2.1

/-- C10: because `analyze_with_ai` returns a non-empty dict on every path,
the `if not ai_result` error branches of both callers — the webhook's
"AI analysis failed" response and the endpoint's AI_FAILED response — are
unreachable. -/
theorem C10_ai_failed_branches_unreachable (body : ReqJson)
    (eventType : Option String) (fetchDiffResult : Option String)
    (cfg : Bool) (r1 r2 : GenResult) (slackOk : Bool) (req : ApiReq)
    (githubToken : Bool) (outcomes : Nat → AttemptOutcome)
    (times : Nat → Int) (fb : Option String) (cfg2 : Bool)
    (r3 r4 : GenResult) (d : String) :
    analyze_with_ai cfg2 r3 r4 d ≠ [] ∧
    (github_webhook body eventType fetchDiffResult cfg r1 r2 slackOk).2
      ≠ .errAiFailed ∧
    (analyze_pr_endpoint req githubToken outcomes times fb cfg2 r3 r4).2
      ≠ .aiFailed := by
  refine ⟨?_, ?_, ?_⟩
  · intro h
    have := analyze_isEmpty_false cfg2 r3 r4 d
    rw [h] at this
    cases this
  · cases body with
    | raises e => simp [github_webhook]
    | val p =>
      cases p with
      | none => simp [github_webhook]
      | some pl =>
        simp only [github_webhook]
        split
        · simp
        split
        · simp
        split
        · simp
        split
        · simp
        rw [if_neg (by simp [analyze_isEmpty_false])]
        simp
  · cases req with
    | raises e => simp [analyze_pr_endpoint]
    | val dt =>
      cases dt with
      | none => simp [analyze_pr_endpoint]
      | some pu =>
        simp only [analyze_pr_endpoint]
        split
        · simp
        split
        · simp
        split
        · simp
        split
        · simp
        · exact endpointFallback_ne_aiFailed _ _ _ _ _
        · split
          · exact endpointFallback_ne_aiFailed _ _ _ _ _
          · exact endpointAnalyze_ne_aiFailed _ _ _ _ _

/-! ## The structured backend protocol (spec only)

Modelled from the spec: the structured protocol — "request the model to
emit a single JSON object with keys `verdict` and `comment`; parse; on
parse failure or a missing key fall back to
`{NEEDS_REVIEW, "manual review required"}`; a parsed verdict outside the
canonical set is normalized to NEEDS_REVIEW while the comment is
preserved" — has no implementation in `src/` (src/main.py implements only
the two-pass protocol), so it is embedded from the spec's words. -/

/-- Modelled from the spec: outcome of parsing the structured-protocol
model output — a parse failure, or a JSON object whose `verdict` and
`comment` keys may each be absent. -/
inductive ParsedStructured where
  | parseFail
  | obj (verdict : Option String) (comment : Option String)

/-- Modelled from the spec: the structured-protocol classifier decision
on a parsed model response. -/
def structuredClassify : ParsedStructured → List (String × String)
  | .parseFail => mkResult "NEEDS_REVIEW" "manual review required"
  | .obj none _ => mkResult "NEEDS_REVIEW" "manual review required"
  | .obj (some _) none => mkResult "NEEDS_REVIEW" "manual review required"
  | .obj (some v) (some c) =>
    if v ∈ canonicalVerdicts then mkResult v c
    else mkResult "NEEDS_REVIEW" c

/-- C9: under the structured protocol, `{"verdict": "BAD", "comment": "x"}`
yields `{NEEDS_REVIEW, "x"}`; in general a parsed verdict outside the
canonical set is normalized to NEEDS_REVIEW with the comment preserved,
and a parse failure or missing key yields
`{NEEDS_REVIEW, "manual review required"}`. -/
theorem C9_structured_normalization :
    structuredClassify (.obj (some "BAD") (some "x")) = mkResult "NEEDS_REVIEW" "x" ∧
    (∀ v c, structuredClassify (.obj (some v) (some c)) =
      mkResult (if v ∈ canonicalVerdicts then v else "NEEDS_REVIEW") c) ∧
    structuredClassify .parseFail = mkResult "NEEDS_REVIEW" "manual review required" ∧
    (∀ c, structuredClassify (.obj none c) =
      mkResult "NEEDS_REVIEW" "manual review required") ∧
    (∀ v, structuredClassify (.obj v none) =
      mkResult "NEEDS_REVIEW" "manual review required") := by
  refine ⟨by decide, ?_, rfl, fun c => rfl, ?_⟩
  · intro v c
    by_cases h : v ∈ canonicalVerdicts <;> simp [structuredClassify, h]
  · intro v
    cases v <;> rfl

end PRTriage
